import Mathlib

/-!
Verification of `torch/_decomp/decompositions_for_rng.py`.

The Python module is embedded shallowly:

* Scalar tensors holding a seed or an offset are modelled as `Int` values;
  the empty tensor `torch.Tensor(())` used for an unpopulated field is
  modelled as `none`, so `seed`/`base_offset` become `Option Int`.
* The class-level mutable state of `PhiloxStateTracker` is modelled as an
  explicit record threaded through every operation.  In Python,
  `running_state` is an alias of either `fwd_state`, `bwd_state`, or a
  fresh detached `PhiloxState` (right after `clear`); we model the alias
  as a `RunningPtr` tag next to the three owned states.
* Python exceptions (`AssertionError` in `validate_state`/`record_state`,
  the `RuntimeError` from `throw_on_non_cuda`, the `ValueError` from the
  advance guard, and the `AttributeError` raised when `device.type` is
  read off the plain string "cpu") become an `RngError` value returned
  through `Except`; an operation that raises returns the tracker it had
  mutated so far (mutation-before-raise is preserved by construction).
* The CUDA generator state tensor handled by `RNGStateHelper` is a byte
  buffer, modelled as `List Nat` with each element a byte value; the
  int64 views at bytes 800..808 and 808..816 are little-endian 8-byte
  encodings.
* Python's `int(a / b)` on nonnegative operands is modelled as exact
  integer floor division (`Nat.div`); IEEE rounding of the intermediate
  float is outside the model.
-/

/-- Errors the module can raise, one constructor per `raise`/`assert`
site.  `attributeError` stands for the `AttributeError` Python raises
when `.type` is read from the string `"cpu"` that `device = device or
"cpu"` substitutes for a missing device argument. -/
inductive RngError where
  | uninitializedState
  | unsupportedDevice (msg : String)
  | offsetStagnation
  | invalidPhase
  | attributeError
deriving DecidableEq

/-- `PhiloxState`: seed, base offset (both start as empty tensors,
modelled `none`) and the relative offset consumed during tracing. -/
structure PhiloxState where
  seed : Option Int
  baseOffset : Option Int
  relativeOffset : Int
deriving DecidableEq

/-- `PhiloxState.reset`: all three fields back to their empty values. -/
def PhiloxState.reset : PhiloxState :=
  { seed := none, baseOffset := none, relativeOffset := 0 }

/-- `PhiloxState.validate_state`: asserts both tensors are non-empty. -/
def PhiloxState.validate_state (s : PhiloxState) : Except RngError Unit :=
  match s.seed, s.baseOffset with
  | some _, some _ => .ok ()
  | _, _ => .error .uninitializedState

/-- `PhiloxState.advance_offset`: adds the consumed offset. -/
def PhiloxState.advance_offset (s : PhiloxState) (consumed : Int) : PhiloxState :=
  { s with relativeOffset := s.relativeOffset + consumed }

/-- `PhiloxState.set_state (seed, base_offset, relative_offset)`. -/
def PhiloxState.set_state (s : PhiloxState) (seed baseOffset relativeOffset : Int) :
    PhiloxState :=
  { s with seed := some seed, baseOffset := some baseOffset,
           relativeOffset := relativeOffset }

/-- `PhiloxState.get_state_as_tuple`: validates, then returns
`(seed, base_offset + relative_offset)`. -/
def PhiloxState.get_state_as_tuple (s : PhiloxState) : Except RngError (Int × Int) :=
  match s.seed, s.baseOffset with
  | some sd, some b => .ok (sd, b + s.relativeOffset)
  | _, _ => .error .uninitializedState

/-- `PhiloxState.get_state_as_tensor`: validates, then stacks
`[seed, base_offset + relative_offset]` into one transport value,
modelled as the pair of the two scalar entries. -/
def PhiloxState.get_state_as_tensor (s : PhiloxState) : Except RngError (Int × Int) :=
  match s.seed, s.baseOffset with
  | some sd, some b => .ok (sd, b + s.relativeOffset)
  | _, _ => .error .uninitializedState

/-- `PhiloxState.set_state_from_tensor`: splits the transport value into
seed and base offset and resets `relative_offset` to 0. -/
def PhiloxState.set_state_from_tensor (s : PhiloxState) (state : Int × Int) :
    PhiloxState :=
  { s with seed := some state.1, baseOffset := some state.2, relativeOffset := 0 }

/-- `PhiloxTotalOffsets`: the pair of accumulated offsets. -/
structure PhiloxTotalOffsets where
  total_fwd_offset : Int
  total_bwd_offset : Int
deriving DecidableEq

/-- Which `PhiloxState` the Python alias `running_state` points to:
`fwd_state`, `bwd_state`, or the fresh detached state installed by
`clear` before any phase begins. -/
inductive RunningPtr where
  | detached
  | fwd
  | bwd
deriving DecidableEq

/-- `PhiloxStateTracker`: the three owned states plus the alias tag. -/
structure PhiloxStateTracker where
  fwd_state : PhiloxState
  bwd_state : PhiloxState
  detached_state : PhiloxState
  running : RunningPtr
deriving DecidableEq

/-- `PhiloxStateTracker.clear`: three fresh states; `running_state`
points at the fresh detached one. -/
def PhiloxStateTracker.clear : PhiloxStateTracker :=
  { fwd_state := PhiloxState.reset, bwd_state := PhiloxState.reset,
    detached_state := PhiloxState.reset, running := .detached }

/-- `mark_beginning_of_forward`: repoints `running_state` at `fwd_state`. -/
def PhiloxStateTracker.mark_beginning_of_forward (t : PhiloxStateTracker) :
    PhiloxStateTracker :=
  { t with running := .fwd }

/-- `mark_beginning_of_backward`: repoints `running_state` at `bwd_state`. -/
def PhiloxStateTracker.mark_beginning_of_backward (t : PhiloxStateTracker) :
    PhiloxStateTracker :=
  { t with running := .bwd }

/-- `mark_end_of_tracing`: calls `clear`. -/
def PhiloxStateTracker.mark_end_of_tracing (_t : PhiloxStateTracker) :
    PhiloxStateTracker :=
  PhiloxStateTracker.clear

/-- The state the `running_state` alias currently designates. -/
def PhiloxStateTracker.running_state (t : PhiloxStateTracker) : PhiloxState :=
  match t.running with
  | .fwd => t.fwd_state
  | .bwd => t.bwd_state
  | .detached => t.detached_state

/-- `PhiloxStateTracker.record_state(seed, offset, mode)`: sets the
named phase's state via `set_state` (relative offset 0); any mode other
than "forward"/"backward" trips the assertion. -/
def PhiloxStateTracker.record_state (t : PhiloxStateTracker) (seed offset : Int)
    (mode : String) : Except RngError PhiloxStateTracker :=
  if mode = ("forward") then
    .ok { t with fwd_state := t.fwd_state.set_state seed offset 0 }
  else if mode = ("backward") then
    .ok { t with bwd_state := t.bwd_state.set_state seed offset 0 }
  else
    .error .invalidPhase

/-- `PhiloxStateTracker.advance_offset`: delegates to the state the
running alias designates; only that state is written. -/
def PhiloxStateTracker.advance_offset (t : PhiloxStateTracker) (consumed : Int) :
    PhiloxStateTracker :=
  match t.running with
  | .fwd => { t with fwd_state := t.fwd_state.advance_offset consumed }
  | .bwd => { t with bwd_state := t.bwd_state.advance_offset consumed }
  | .detached => { t with detached_state := t.detached_state.advance_offset consumed }

/-- `PhiloxStateTracker.get_state_as_tuple`: delegates to the running state. -/
def PhiloxStateTracker.get_state_as_tuple (t : PhiloxStateTracker) :
    Except RngError (Int × Int) :=
  t.running_state.get_state_as_tuple

/-- `PhiloxStateTracker.get_state_as_tensor`: delegates to the running state. -/
def PhiloxStateTracker.get_state_as_tensor (t : PhiloxStateTracker) :
    Except RngError (Int × Int) :=
  t.running_state.get_state_as_tensor

/-- `PhiloxStateTracker.get_current_relative_offset`. -/
def PhiloxStateTracker.get_current_relative_offset (t : PhiloxStateTracker) : Int :=
  t.running_state.relativeOffset

/-- `PhiloxStateTracker.get_accumulated_offsets`. -/
def PhiloxStateTracker.get_accumulated_offsets (t : PhiloxStateTracker) :
    PhiloxTotalOffsets :=
  { total_fwd_offset := t.fwd_state.relativeOffset,
    total_bwd_offset := t.bwd_state.relativeOffset }

/-- The two fields of `torch.cuda.get_device_properties` the offset
calculator reads. -/
structure DeviceProperties where
  max_threads_per_multi_processor : Nat
  multi_processor_count : Nat
deriving DecidableEq

/-- `numel`: product of the shape's dimensions, starting from 1 (an
empty shape therefore yields 1). -/
def numelOf (shape : List Nat) : Nat :=
  shape.foldl (fun acc d => acc * d) 1

/-- `rand_offset_calculator`, translated from the source: block size 256,
unroll 4, four curand4 engine calls; `blocks_per_sm` from the device
properties; grid size `(numel + 255) / 256` clamped by
`multi_processor_count * blocks_per_sm`. -/
def rand_offset_calculator (props : DeviceProperties) (shape : List Nat) : Nat :=
  let numel := numelOf shape
  let block_size := 256
  let unroll := 4
  let curand4_engine_calls := 4
  let blocks_per_sm := props.max_threads_per_multi_processor / block_size
  let grid_size0 := (numel + block_size - 1) / block_size
  let grid_size := min grid_size0 (props.multi_processor_count * blocks_per_sm)
  ((numel - 1) / (block_size * grid_size * unroll) + 1) * curand4_engine_calls

/-- The offset formula as the specification words it: grid size is the
ceiling `ceil(numel / block_size)` (written out by divisibility cases)
clamped to `core_count * blocks_per_core`, and the offset is
`(floor((numel - 1) / (block_size * grid_size * unroll)) + 1) *
engine_calls_per_block`. -/
def spec_rand_offset (props : DeviceProperties) (shape : List Nat) : Nat :=
  let numel := numelOf shape
  let block_size := 256
  let unroll := 4
  let engine_calls_per_block := 4
  let blocks_per_core := props.max_threads_per_multi_processor / block_size
  let ceil_div := numel / block_size + (if numel % block_size = 0 then 0 else 1)
  let grid_size := min ceil_div (props.multi_processor_count * blocks_per_core)
  ((numel - 1) / (block_size * grid_size * unroll) + 1) * engine_calls_per_block

/-- The message `throw_on_non_cuda` raises, naming the device kind. -/
def throw_on_non_cuda_message (kind : String) : String :=
  "You are trying to functionalize a " ++
    (kind ++
      (" RNG operator but " ++
        (kind ++
          (" does not use Philox/counter-based PRNG. Therefore, functionalizing a " ++
            (kind ++
              (" RNG operator is " ++
                "not supported. We are discussing the possibility of a Philox-based RNG implementation for CPU."))))))

/-- A `torch.device` object: only its `.type` string is consulted. -/
structure TorchDevice where
  type : String
deriving DecidableEq

/-- The slice of a tensor the `rand_like` decomposition reads: its shape
and its device. -/
structure Tensor where
  shape : List Nat
  device : TorchDevice
deriving DecidableEq

/-- The call to `torch.ops.prims.philox_rand` a decomposition emits,
recorded by the arguments that determine the drawn values. -/
structure DrawResult where
  shape : List Nat
  seed : Int
  offset : Int
deriving DecidableEq

/-- `throw_if_philox_offset_did_not_advance`: reads the tracker's current
relative offset, runs the wrapped implementation, reads the offset
again, and raises `ValueError` when the two reads are equal; otherwise
the implementation's result is passed through. -/
def throw_if_philox_offset_did_not_advance {α : Type}
    (fn : PhiloxStateTracker → α × PhiloxStateTracker) (t : PhiloxStateTracker) :
    Except RngError α × PhiloxStateTracker :=
  let old_relative_offset := t.get_current_relative_offset
  let res := fn t
  let new_relative_offset := res.2.get_current_relative_offset
  if old_relative_offset = new_relative_offset then
    (.error .offsetStagnation, res.2)
  else
    (.ok res.1, res.2)

/-- The `rand` decomposition.  `device = device or "cpu"` turns a missing
device into the plain string "cpu", whose `.type` read raises
`AttributeError` before anything else runs; a real non-cuda device is
rejected by `throw_on_non_cuda`; otherwise the running (seed, offset)
is read, the draw is emitted, and the tracker advances by
`rand_offset_calculator(shape)`. -/
def rand (props : DeviceProperties) (shape : List Nat) (device : Option TorchDevice)
    (t : PhiloxStateTracker) : Except RngError DrawResult × PhiloxStateTracker :=
  match device with
  | none => (.error .attributeError, t)
  | some dev =>
    if dev.type ≠ ("cuda") then
      (.error (.unsupportedDevice (throw_on_non_cuda_message dev.type)), t)
    else
      match t.get_state_as_tuple with
      | .error e => (.error e, t)
      | .ok so =>
          (.ok { shape := shape, seed := so.1, offset := so.2 },
           t.advance_offset (rand_offset_calculator props shape : Int))

/-- The `rand_like` decomposition: like `rand`, with the device and the
shape defaulting to those of the reference tensor `x`. -/
def rand_like (props : DeviceProperties) (x : Tensor) (device : Option TorchDevice)
    (t : PhiloxStateTracker) : Except RngError DrawResult × PhiloxStateTracker :=
  let dev := device.getD x.device
  if dev.type ≠ ("cuda") then
    (.error (.unsupportedDevice (throw_on_non_cuda_message dev.type)), t)
  else
    match t.get_state_as_tuple with
    | .error e => (.error e, t)
    | .ok so =>
        (.ok { shape := x.shape, seed := so.1, offset := so.2 },
         t.advance_offset (rand_offset_calculator props x.shape : Int))

/-- A sequence of `rand` draws on a cuda device, one per listed shape;
each draw threads the tracker to the next. -/
def randMany (props : DeviceProperties) (cud : TorchDevice)
    (shapes : List (List Nat)) (t : PhiloxStateTracker) : PhiloxStateTracker :=
  shapes.foldl (fun tr sh => (rand props sh (some cud) tr).2) t

/-- Little-endian 8-byte encoding of an int64 value, as produced by
viewing a one-element int64 tensor as uint8. -/
def toLEBytes8 (n : Nat) : List Nat :=
  [n % 256, n / 256 % 256, n / 65536 % 256, n / 16777216 % 256,
   n / 4294967296 % 256, n / 1099511627776 % 256,
   n / 281474976710656 % 256, n / 72057594037927936 % 256]

/-- Reading the first 8 bytes of a buffer as a little-endian int64, as
`view(dtype=torch.int64)[0]` does. -/
def fromLEBytes8 : List Nat → Nat
  | b0 :: b1 :: b2 :: b3 :: b4 :: b5 :: b6 :: b7 :: _ =>
      b0 + 256 * (b1 + 256 * (b2 + 256 * (b3 + 256 *
        (b4 + 256 * (b5 + 256 * (b6 + 256 * b7))))))
  | _ => 0

/-- `RNGStateHelper.set_torch_state_tensor`: the buffer installed as the
new device RNG state is an 800-byte pad of `uint8(-1) = 255`, then the
seed's 8 bytes, then the offset's 8 bytes. -/
def set_torch_state_tensor (seed offset : Nat) : List Nat :=
  let seed_portion := toLEBytes8 seed
  let offset_portion := toLEBytes8 offset
  let pad := List.replicate 800 255
  pad ++ (seed_portion ++ offset_portion)

/-- `RNGStateHelper.get_torch_state_as_tuple`: `(0, 0)` when cuda is
unavailable; otherwise the int64 views at bytes 800..808 (seed) and
808.. (offset, first element). -/
def get_torch_state_as_tuple (cuda_available : Bool) (rng_state : List Nat) :
    Nat × Nat :=
  if cuda_available then
    (fromLEBytes8 (rng_state.drop 800), fromLEBytes8 (rng_state.drop 808))
  else
    (0, 0)

/-! ## Claim theorems -/

/-- Claim C1: for every shape with `numel ≥ 1`, `rand_offset_calculator`
returns `(floor((numel - 1) / (block_size * grid_size * unroll)) + 1) *
engine_calls_per_block` with `grid_size = ceil(numel / block_size)`
clamped to `core_count * blocks_per_core`, and an empty shape yields
`numel = 1`. -/
theorem rand_offset_matches_spec (props : DeviceProperties) (shape : List Nat)
    (h : 1 ≤ numelOf shape) :
    rand_offset_calculator props shape = spec_rand_offset props shape ∧
    numelOf [] = 1 := by
  refine ⟨?_, rfl⟩
  have hg : (numelOf shape + 256 - 1) / 256
      = numelOf shape / 256 + (if numelOf shape % 256 = 0 then 0 else 1) := by
    split <;> omega
  simp only [rand_offset_calculator, spec_rand_offset, hg]

/-- Witness for C1 at a concrete device (2048 threads per SM, 80 SMs)
and shape `[4, 4]`. -/
theorem rand_offset_matches_spec_witness :
    1 ≤ numelOf [4, 4] ∧
    rand_offset_calculator ⟨2048, 80⟩ [4, 4] = spec_rand_offset ⟨2048, 80⟩ [4, 4] :=
  ⟨by decide, (rand_offset_matches_spec ⟨2048, 80⟩ [4, 4] (by decide)).1⟩

/-- Claim C2: advancing the offset mutates only the state the running
pointer aliases — with forward running, the backward state (offset, seed
and base offset) is untouched, and vice versa; with the detached state
running, neither phase state moves; and repointing the running phase via
either mark operation mutates neither phase state. -/
theorem advance_isolates_phases (t : PhiloxStateTracker) (n : Int) :
    (t.running = .fwd → (t.advance_offset n).bwd_state = t.bwd_state ∧
        (t.advance_offset n).fwd_state.seed = t.fwd_state.seed ∧
        (t.advance_offset n).fwd_state.baseOffset = t.fwd_state.baseOffset) ∧
    (t.running = .bwd → (t.advance_offset n).fwd_state = t.fwd_state ∧
        (t.advance_offset n).bwd_state.seed = t.bwd_state.seed ∧
        (t.advance_offset n).bwd_state.baseOffset = t.bwd_state.baseOffset) ∧
    (t.running = .detached → (t.advance_offset n).fwd_state = t.fwd_state ∧
        (t.advance_offset n).bwd_state = t.bwd_state) ∧
    (t.mark_beginning_of_forward).fwd_state = t.fwd_state ∧
    (t.mark_beginning_of_forward).bwd_state = t.bwd_state ∧
    (t.mark_beginning_of_backward).fwd_state = t.fwd_state ∧
    (t.mark_beginning_of_backward).bwd_state = t.bwd_state := by
  obtain ⟨f, b, d, r⟩ := t
  cases r <;>
    simp [PhiloxStateTracker.advance_offset, PhiloxStateTracker.mark_beginning_of_forward,
      PhiloxStateTracker.mark_beginning_of_backward, PhiloxState.advance_offset,
      PhiloxStateTracker.running_state]

/-- Witness for C2: a forward-running and a backward-running tracker,
advanced by 5. -/
theorem advance_isolates_phases_witness :
    ((PhiloxStateTracker.clear.mark_beginning_of_forward).advance_offset 5).bwd_state
        = (PhiloxStateTracker.clear.mark_beginning_of_forward).bwd_state ∧
    ((PhiloxStateTracker.clear.mark_beginning_of_backward).advance_offset 5).fwd_state
        = (PhiloxStateTracker.clear.mark_beginning_of_backward).fwd_state :=
  ⟨((advance_isolates_phases (PhiloxStateTracker.clear.mark_beginning_of_forward) 5).1
      rfl).1,
   ((advance_isolates_phases (PhiloxStateTracker.clear.mark_beginning_of_backward) 5).2.1
      rfl).1⟩

/-- Claim C3: the guard raises `OffsetStagnationError` exactly when the
relative offset read before the wrapped implementation equals the one
read after it; when the offset changed, the implementation's result (and
the tracker it produced) pass through unchanged. -/
theorem guard_raises_iff_offset_stagnant {α : Type}
    (fn : PhiloxStateTracker → α × PhiloxStateTracker) (t : PhiloxStateTracker) :
    ((throw_if_philox_offset_did_not_advance fn t).1 = .error .offsetStagnation ↔
        t.get_current_relative_offset = (fn t).2.get_current_relative_offset) ∧
    (t.get_current_relative_offset ≠ (fn t).2.get_current_relative_offset →
        throw_if_philox_offset_did_not_advance fn t = (.ok (fn t).1, (fn t).2)) := by
  simp only [throw_if_philox_offset_did_not_advance]
  split <;> simp_all

/-- Witness for C3: an implementation that advances by 3 passes its
result through the guard unchanged. -/
theorem guard_raises_iff_offset_stagnant_witness :
    throw_if_philox_offset_did_not_advance
        (fun tr => ((0 : Nat), tr.advance_offset 3))
        PhiloxStateTracker.clear.mark_beginning_of_forward
      = (.ok 0, (PhiloxStateTracker.clear.mark_beginning_of_forward).advance_offset 3) :=
  (guard_raises_iff_offset_stagnant
      (fun tr => ((0 : Nat), tr.advance_offset 3))
      PhiloxStateTracker.clear.mark_beginning_of_forward).2 (by decide)

/-- Claim C4: restoring a state from its own transport value keeps the
seed, moves the base offset to the prior `base + relative`, resets the
relative offset to 0, and therefore preserves the effective offset read
by `get_state_as_tuple`. -/
theorem transport_round_trip (s : PhiloxState) (sd b : Int)
    (hs : s.seed = some sd) (hb : s.baseOffset = some b) :
    s.get_state_as_tensor = .ok (sd, b + s.relativeOffset) ∧
    ∀ v, s.get_state_as_tensor = .ok v →
      (s.set_state_from_tensor v).seed = s.seed ∧
      (s.set_state_from_tensor v).baseOffset = some (b + s.relativeOffset) ∧
      (s.set_state_from_tensor v).relativeOffset = 0 ∧
      (s.set_state_from_tensor v).get_state_as_tuple = .ok (sd, b + s.relativeOffset) := by
  have h1 : s.get_state_as_tensor = .ok (sd, b + s.relativeOffset) := by
    simp [PhiloxState.get_state_as_tensor, hs, hb]
  refine ⟨h1, ?_⟩
  intro v hv
  rw [h1] at hv
  obtain rfl : (sd, b + s.relativeOffset) = v := by
    simpa using hv
  simp [PhiloxState.set_state_from_tensor, PhiloxState.get_state_as_tuple, hs]

/-- Witness for C4 at seed 11, base offset 5, relative offset 2. -/
theorem transport_round_trip_witness :
    (PhiloxState.mk (some 11) (some 5) 2).get_state_as_tensor = .ok (11, 7) ∧
    ((PhiloxState.mk (some 11) (some 5) 2).set_state_from_tensor
        (11, 7)).get_state_as_tuple = .ok (11, 7) := by
  have h := transport_round_trip (PhiloxState.mk (some 11) (some 5) 2) 11 5 rfl rfl
  exact ⟨h.1, (h.2 (11, 7) h.1).2.2.2⟩

/-- Claim C6: invoking `rand` with a device whose type is not "cuda"
raises the unsupported-device error, the message names the device kind,
and the tracker comes back untouched (same running relative offset). -/
theorem rand_rejects_non_cuda (props : DeviceProperties) (shape : List Nat)
    (t : PhiloxStateTracker) (dev : TorchDevice) (h : dev.type ≠ ("cuda")) :
    rand props shape (some dev) t
      = (.error (.unsupportedDevice (throw_on_non_cuda_message dev.type)), t) ∧
    (∃ a b, throw_on_non_cuda_message dev.type = a ++ (dev.type ++ b)) ∧
    (rand props shape (some dev) t).2.get_current_relative_offset
      = t.get_current_relative_offset := by
  have h1 : rand props shape (some dev) t
      = (.error (.unsupportedDevice (throw_on_non_cuda_message dev.type)), t) := by
    simp [rand, h]
  exact ⟨h1, ⟨"You are trying to functionalize a ", _, rfl⟩, by rw [h1]⟩

/-- Witness for C6 on a cpu device. -/
theorem rand_rejects_non_cuda_witness :
    rand ⟨2048, 80⟩ [2, 2] (some ⟨"cpu"⟩) PhiloxStateTracker.clear
      = (.error (.unsupportedDevice (throw_on_non_cuda_message ("cpu"))), PhiloxStateTracker.clear) ∧
    (∃ a b, throw_on_non_cuda_message ("cpu") = a ++ (("cpu") ++ b)) :=
  ⟨(rand_rejects_non_cuda ⟨2048, 80⟩ [2, 2] PhiloxStateTracker.clear ⟨"cpu"⟩
      (by decide)).1,
   (rand_rejects_non_cuda ⟨2048, 80⟩ [2, 2] PhiloxStateTracker.clear ⟨"cpu"⟩
      (by decide)).2.1⟩

/-- Claim C7: reading the (seed, effective offset) pair — as a tuple or
as a tensor — fails with the uninitialized-state error exactly when seed
or base offset is still empty; once both are populated it returns
`(seed, base_offset + relative_offset)`. -/
theorem state_read_requires_initialization (s : PhiloxState) :
    ((s.seed = none ∨ s.baseOffset = none) →
        s.get_state_as_tuple = .error .uninitializedState ∧
        s.get_state_as_tensor = .error .uninitializedState ∧
        s.validate_state = .error .uninitializedState) ∧
    (∀ sd b, s.seed = some sd → s.baseOffset = some b →
        s.get_state_as_tuple = .ok (sd, b + s.relativeOffset) ∧
        s.get_state_as_tensor = .ok (sd, b + s.relativeOffset)) := by
  obtain ⟨sd?, b?, r⟩ := s
  constructor
  · rintro (rfl | rfl)
    · cases b? <;>
        simp [PhiloxState.get_state_as_tuple, PhiloxState.get_state_as_tensor,
          PhiloxState.validate_state]
    · cases sd? <;>
        simp [PhiloxState.get_state_as_tuple, PhiloxState.get_state_as_tensor,
          PhiloxState.validate_state]
  · rintro sd b rfl rfl
    simp [PhiloxState.get_state_as_tuple, PhiloxState.get_state_as_tensor]

/-- Witness for C7: an empty-seed state is rejected; a populated state
returns seed and effective offset. -/
theorem state_read_requires_initialization_witness :
    (PhiloxState.mk none (some 3) 1).get_state_as_tuple
        = .error .uninitializedState ∧
    (PhiloxState.mk (some 9) (some 3) 1).get_state_as_tuple = .ok (9, 4) :=
  ⟨((state_read_requires_initialization (PhiloxState.mk none (some 3) 1)).1
      (Or.inl rfl)).1,
   ((state_read_requires_initialization (PhiloxState.mk (some 9) (some 3) 1)).2
      9 3 rfl rfl).1⟩

/-- Claim C8: `record_state` with mode "forward" sets exactly the forward
state (relative offset 0), with "backward" exactly the backward state,
independent of which state is running; any other mode fails with the
invalid-phase error. -/
theorem record_state_by_phase (t : PhiloxStateTracker) (seed offset : Int)
    (mode : String) :
    (t.record_state seed offset ("forward")
        = .ok { t with fwd_state :=
            { seed := some seed, baseOffset := some offset, relativeOffset := 0 } }) ∧
    (t.record_state seed offset ("backward")
        = .ok { t with bwd_state :=
            { seed := some seed, baseOffset := some offset, relativeOffset := 0 } }) ∧
    (mode ≠ ("forward") → mode ≠ ("backward") →
        t.record_state seed offset mode = .error .invalidPhase) := by
  refine ⟨?_, ?_, ?_⟩
  · rw [PhiloxStateTracker.record_state, if_pos rfl]
    rfl
  · rw [PhiloxStateTracker.record_state, if_neg (by decide), if_pos rfl]
    rfl
  · intro h1 h2
    rw [PhiloxStateTracker.record_state, if_neg h1, if_neg h2]

/-- Witness for C8 at seed 10, offset 20 and the invalid mode "oops". -/
theorem record_state_by_phase_witness :
    (PhiloxStateTracker.clear.record_state 10 20 ("forward")
        = .ok { PhiloxStateTracker.clear with fwd_state :=
            { seed := some 10, baseOffset := some 20, relativeOffset := 0 } }) ∧
    PhiloxStateTracker.clear.record_state 10 20 ("oops") = .error .invalidPhase :=
  ⟨(record_state_by_phase PhiloxStateTracker.clear 10 20 ("oops")).1,
   (record_state_by_phase PhiloxStateTracker.clear 10 20 ("oops")).2.2
      (by decide) (by decide)⟩

/-- Claim C10: calling `rand` with no device argument never reaches the
unsupported-device rejection: the Python default is the plain string
"cpu", whose `.type` read raises `AttributeError` before the tracker is
consulted, so the call returns that error with the tracker unchanged. -/
theorem rand_default_device_attribute_error (props : DeviceProperties)
    (shape : List Nat) (t : PhiloxStateTracker) :
    rand props shape none t = (.error .attributeError, t) ∧
    ∀ msg, (rand props shape none t).1 ≠ .error (.unsupportedDevice msg) := by
  refine ⟨rfl, fun msg => ?_⟩
  simp [rand]

/-- Decoding the little-endian 8-byte encoding of `n < 2^64`, with any
suffix appended, recovers `n`. -/
lemma fromLEBytes8_toLEBytes8 (n : Nat) (h : n < 18446744073709551616)
    (rest : List Nat) : fromLEBytes8 (toLEBytes8 n ++ rest) = n := by
  simp only [toLEBytes8, List.cons_append, List.nil_append, fromLEBytes8]
  omega

/-- The written device state buffer after its 800-byte pad: the seed
bytes then the offset bytes. -/
lemma set_torch_state_drop_800 (seed offset : Nat) :
    (set_torch_state_tensor seed offset).drop 800
      = toLEBytes8 seed ++ toLEBytes8 offset := by
  simp only [set_torch_state_tensor]
  exact List.drop_left' (List.length_replicate 800 255)

/-- The written device state buffer after byte 808: the offset bytes. -/
lemma set_torch_state_drop_808 (seed offset : Nat) :
    (set_torch_state_tensor seed offset).drop 808 = toLEBytes8 offset := by
  have h8 : (808 : Nat) = 800 + 8 := by norm_num
  rw [h8, ← List.drop_drop, set_torch_state_drop_800]
  exact List.drop_left' (by simp [toLEBytes8])

/-- Decoding the little-endian 8-byte encoding of `n < 2^64` alone
recovers `n`. -/
lemma fromLEBytes8_toLEBytes8_nil (n : Nat) (h : n < 18446744073709551616) :
    fromLEBytes8 (toLEBytes8 n) = n := by
  simpa using fromLEBytes8_toLEBytes8 n h []

/-- Claim C9: the written device state is the 800-byte pad, then the
8 seed bytes, then the 8 offset bytes; reading extracts the seed at
bytes 800..808 and the offset from the 8 bytes after, so the write/read
pair round-trips any int64 `(seed, offset)` — `(42, 7)` in particular. -/
theorem torch_state_roundtrip (seed offset : Nat)
    (hs : seed < 18446744073709551616) (ho : offset < 18446744073709551616) :
    get_torch_state_as_tuple true (set_torch_state_tensor seed offset)
        = (seed, offset) ∧
    (set_torch_state_tensor seed offset).take 800 = List.replicate 800 255 ∧
    (set_torch_state_tensor seed offset).length = 816 := by
  refine ⟨?_, ?_, ?_⟩
  · simp only [get_torch_state_as_tuple, if_true]
    rw [set_torch_state_drop_800, set_torch_state_drop_808,
      fromLEBytes8_toLEBytes8 seed hs, fromLEBytes8_toLEBytes8_nil offset ho]
  · simp only [set_torch_state_tensor]
    exact List.take_left' (List.length_replicate 800 255)
  · simp only [set_torch_state_tensor, List.length_append,
      List.length_replicate, toLEBytes8, List.length_cons, List.length_nil]

/-- Witness for C9 at seed 42, offset 7. -/
theorem torch_state_roundtrip_witness :
    get_torch_state_as_tuple true (set_torch_state_tensor 42 7) = (42, 7) :=
  (torch_state_roundtrip 42 7 (by norm_num) (by norm_num)).1

/-- Advancing the tracker keeps the running pointer and advances exactly
the state it designates. -/
lemma advance_offset_running (t : PhiloxStateTracker) (n : Int) :
    (t.advance_offset n).running = t.running ∧
    (t.advance_offset n).running_state = t.running_state.advance_offset n := by
  obtain ⟨f, b, d, r⟩ := t
  cases r <;>
    simp [PhiloxStateTracker.advance_offset, PhiloxStateTracker.running_state]

/-- A `rand` draw on a cuda device with an initialized running state
returns the draw at the current (seed, effective offset) and advances
the tracker by the calculator's offset for the drawn shape. -/
lemma rand_ok (props : DeviceProperties) (sh : List Nat) (cud : TorchDevice)
    (hcud : cud.type = ("cuda")) (t : PhiloxStateTracker) (sd b : Int)
    (hs : t.running_state.seed = some sd)
    (hb : t.running_state.baseOffset = some b) :
    rand props sh (some cud) t
      = (.ok { shape := sh, seed := sd,
               offset := b + t.running_state.relativeOffset },
         t.advance_offset (rand_offset_calculator props sh : Int)) := by
  simp [rand, hcud, PhiloxStateTracker.get_state_as_tuple,
    PhiloxState.get_state_as_tuple, hs, hb]

/-- Offsets of a draw sequence in one phase: the running state's seed
and base offset survive every draw, and its relative offset grows by the
sum of the calculator's offsets of the drawn shapes. -/
lemma randMany_offsets (props : DeviceProperties) (cud : TorchDevice)
    (hcud : cud.type = ("cuda")) (shapes : List (List Nat)) :
    ∀ (t : PhiloxStateTracker) (sd b : Int),
      t.running_state.seed = some sd → t.running_state.baseOffset = some b →
      (randMany props cud shapes t).running_state.seed = some sd ∧
      (randMany props cud shapes t).running_state.baseOffset = some b ∧
      (randMany props cud shapes t).running_state.relativeOffset
        = t.running_state.relativeOffset
          + (shapes.map fun sh => (rand_offset_calculator props sh : Int)).sum := by
  induction shapes with
  | nil =>
    intro t sd b hs hb
    exact ⟨hs, hb, by simp [randMany]⟩
  | cons sh rest ih =>
    intro t sd b hs hb
    have hstep : randMany props cud (sh :: rest) t
        = randMany props cud rest ((rand props sh (some cud) t).2) := rfl
    rw [hstep, rand_ok props sh cud hcud t sd b hs hb]
    have hrun := advance_offset_running t (rand_offset_calculator props sh : Int)
    have hs' : (t.advance_offset (rand_offset_calculator props sh : Int)).running_state.seed
        = some sd := by
      rw [hrun.2]; simpa [PhiloxState.advance_offset] using hs
    have hb' : (t.advance_offset (rand_offset_calculator props sh : Int)).running_state.baseOffset
        = some b := by
      rw [hrun.2]; simpa [PhiloxState.advance_offset] using hb
    obtain ⟨ha, hbb, hc⟩ :=
      ih (t.advance_offset (rand_offset_calculator props sh : Int)) sd b hs' hb'
    refine ⟨ha, hbb, ?_⟩
    rw [hc, hrun.2]
    simp [PhiloxState.advance_offset]
    ring

/-- Claim C5: after `clear`, beginning the forward phase, recording state
for "forward" and drawing `rand [4,4]` twice, the current relative
offset is `2 * rand_offset_calculator [4,4]`; after then beginning
backward, recording state for "backward" and drawing `rand_like x` once,
the accumulated offsets are `(2 * rand_offset_calculator [4,4],
rand_offset_calculator x.shape)`; and in general a phase's relative
offset grows by the sum of the offsets computed for its draws. -/
theorem end_to_end_accumulated_offsets (props : DeviceProperties)
    (S O S2 O2 : Int) (x : Tensor) (cud : TorchDevice)
    (hcud : cud.type = ("cuda")) (hx : x.device.type = ("cuda"))
    (t2 t6 : PhiloxStateTracker)
    (h2 : (PhiloxStateTracker.clear.mark_beginning_of_forward).record_state S O
        ("forward") = .ok t2)
    (h6 : ((((rand props [4, 4] (some cud)
            ((rand props [4, 4] (some cud) t2).2)).2).mark_beginning_of_backward).record_state
          S2 O2 ("backward")) = .ok t6) :
    ((rand props [4, 4] (some cud)
        ((rand props [4, 4] (some cud) t2).2)).2).get_current_relative_offset
      = 2 * (rand_offset_calculator props [4, 4] : Int) ∧
    ((rand_like props x none t6).2).get_accumulated_offsets
      = ⟨2 * (rand_offset_calculator props [4, 4] : Int),
         (rand_offset_calculator props x.shape : Int)⟩ ∧
    (∀ (shapes : List (List Nat)) (t : PhiloxStateTracker) (sd b : Int),
        t.running_state.seed = some sd → t.running_state.baseOffset = some b →
        (randMany props cud shapes t).running_state.relativeOffset
          = t.running_state.relativeOffset
            + (shapes.map fun sh => (rand_offset_calculator props sh : Int)).sum) := by
  simp [PhiloxStateTracker.record_state, PhiloxStateTracker.mark_beginning_of_forward,
    PhiloxStateTracker.clear, PhiloxState.set_state, PhiloxState.reset] at h2
  subst h2
  simp [rand, hcud, PhiloxStateTracker.get_state_as_tuple,
    PhiloxStateTracker.running_state, PhiloxState.get_state_as_tuple,
    PhiloxStateTracker.advance_offset, PhiloxState.advance_offset,
    PhiloxStateTracker.record_state, PhiloxStateTracker.mark_beginning_of_backward,
    PhiloxState.set_state] at h6
  subst h6
  refine ⟨?_, ?_, ?_⟩
  · simp [rand, hcud, PhiloxStateTracker.get_state_as_tuple,
      PhiloxStateTracker.running_state, PhiloxState.get_state_as_tuple,
      PhiloxStateTracker.advance_offset, PhiloxState.advance_offset,
      PhiloxStateTracker.get_current_relative_offset]
    ring
  · simp [rand_like, hx, PhiloxStateTracker.get_state_as_tuple,
      PhiloxStateTracker.running_state, PhiloxState.get_state_as_tuple,
      PhiloxStateTracker.advance_offset, PhiloxState.advance_offset,
      PhiloxStateTracker.get_accumulated_offsets, PhiloxTotalOffsets.mk.injEq]
    ring_nf
  · intro shapes t sd b hs hb
    exact (randMany_offsets props cud hcud shapes t sd b hs hb).2.2

/-- Witness for C5: seed/offset (1,2) forward and (3,4) backward on a
2048-thread, 80-SM device; two `rand [4,4]` draws then one `rand_like`
of a `[2,3]` cuda tensor. -/
theorem end_to_end_accumulated_offsets_witness :
    ((rand ⟨2048, 80⟩ [4, 4] (some ⟨("cuda")⟩)
        ((rand ⟨2048, 80⟩ [4, 4] (some ⟨("cuda")⟩)
            ⟨⟨some 1, some 2, 0⟩, PhiloxState.reset, PhiloxState.reset,
              .fwd⟩).2)).2).get_current_relative_offset
      = 2 * (rand_offset_calculator ⟨2048, 80⟩ [4, 4] : Int) ∧
    ((rand_like ⟨2048, 80⟩ ⟨[2, 3], ⟨("cuda")⟩⟩ none
        ⟨⟨some 1, some 2, 8⟩, ⟨some 3, some 4, 0⟩, PhiloxState.reset,
          .bwd⟩).2).get_accumulated_offsets
      = ⟨2 * (rand_offset_calculator ⟨2048, 80⟩ [4, 4] : Int),
         (rand_offset_calculator ⟨2048, 80⟩ [2, 3] : Int)⟩ := by
  have h := end_to_end_accumulated_offsets ⟨2048, 80⟩ 1 2 3 4 ⟨[2, 3], ⟨("cuda")⟩⟩
      ⟨("cuda")⟩ rfl rfl
      ⟨⟨some 1, some 2, 0⟩, PhiloxState.reset, PhiloxState.reset, .fwd⟩
      ⟨⟨some 1, some 2, 8⟩, ⟨some 3, some 4, 0⟩, PhiloxState.reset, .bwd⟩
      rfl rfl
  exact ⟨h.1, h.2.1⟩
